import Mathlib

/-!
Verification of the orchestration pipeline of the Text-Summarizer-and-Translator
application (`text_summarizer_app.py`).

Texts are modelled as lists of characters (Python `str`).  Every nontrivial
external operation (sentence segmentation, readability scores, language
detection, translation, summarization) is a delegated call to an external
library or network API; these are modelled as oracle functions collected in an
`Env`, fallible ones returning `Except String`.  The Streamlit button handler
is modelled as a pure function from the inputs and the oracle environment to
the list of external calls it makes (in order) and the list of UI render
events it produces (in order).
-/

namespace TextSummarizerApp

/-- Python strings, modelled as lists of characters. -/
abbrev Str := List Char

/-- Auxiliary accumulator version of Python `str.split()` (split on runs of
whitespace, dropping empty tokens): `acc` holds the reversed characters of the
word currently being read. -/
def pySplitAux : Str → Str → List Str
  | [], acc => if acc = [] then [] else [acc.reverse]
  | c :: cs, acc =>
    if c.isWhitespace then
      if acc = [] then pySplitAux cs [] else acc.reverse :: pySplitAux cs []
    else
      pySplitAux cs (c :: acc)

/-- Python `text.split()` with no arguments: the maximal runs of
non-whitespace characters, in order. -/
def pySplit (s : Str) : List Str := pySplitAux s []

/-- Python `not text.strip()`: `true` iff the text is empty or consists
entirely of whitespace characters. -/
def pyBlank (s : Str) : Bool := s.all Char.isWhitespace

/-- The metrics record built by `get_text_metrics`. -/
structure Metrics where
  word_count : Nat
  sentence_count : Nat
  flesch_score : ℚ
  smog_score : ℚ
  language : Str
deriving DecidableEq

/-- The environment of external collaborators: sentence segmentation
(`TextBlob(text).sentences`), readability formulas (`textstat`), statistical
language detection (`langdetect.detect`, which can raise), the translation
service (`GoogleTranslator(...).translate`, which can raise), and the loaded
summarization pipeline (which can raise).  Each is an opaque oracle; only the
orchestration around them belongs to this program. -/
structure Env where
  sentences : Str → Nat
  flesch : Str → ℚ
  smog : Str → ℚ
  detect : Str → Except String Str
  translate : Str → Str → Except String Str
  summarize : Str → Nat → Nat → Except String Str

/-- `get_text_metrics(text)`: word count is `len(text.split())`; sentence
count, the two readability scores and the detected language are delegated to
the external libraries.  `detect` can raise, which propagates to the caller. -/
def get_text_metrics (env : Env) (text : Str) : Except String Metrics :=
  match env.detect text with
  | .error e => .error e
  | .ok lang =>
      .ok { word_count := (pySplit text).length
            sentence_count := env.sentences text
            flesch_score := env.flesch text
            smog_score := env.smog text
            language := lang }

/-- `translate_text(text, target_lang)`: a single delegated call to the
translation service, source language auto-detected. -/
def translate_text (env : Env) (text : Str) (target_lang : Str) :
    Except String Str :=
  env.translate text target_lang

/-- An uploaded file as the handler sees it: the declared MIME type
(`file.type`), the UTF-8 decoding of its raw bytes, the extracted text of each
PDF page in page order (`page.get_text()`), and the text of each DOCX
paragraph in document order (`para.text`). -/
structure UploadedFile where
  mime : String
  utf8Content : Str
  pdfPages : List Str
  docxParagraphs : List Str

/-- The DOCX MIME type string used in `read_file`. -/
def docxMime : String :=
  "application/vnd.openxmlformats-officedocument.wordprocessingml.document"

/-- `read_file(file)`: dispatch on the declared MIME type; plain text is the
UTF-8 decoding, PDF pages and DOCX paragraphs are joined with newlines, and
any other type yields the empty string with no error signalled. -/
def read_file (file : UploadedFile) : Str :=
  if file.mime = "text/plain" then
    file.utf8Content
  else if file.mime = "application/pdf" then
    List.intercalate ['\n'] file.pdfPages
  else if file.mime = docxMime then
    List.intercalate ['\n'] file.docxParagraphs
  else
    []

/-- One external call made by the handler, in the order performed. -/
inductive Call where
  | metricsCall (text : Str)
  | translateCall (text : Str) (target : Str)
  | summarizeCall (text : Str) (max_length min_length : Nat)
deriving DecidableEq

/-- One UI render event produced by the handler, in the order rendered. -/
inductive Render where
  | warning (msg : String)
  | errorMsg (msg : String)
  | infoMsg (msg : String)
  | metricsPanel (title : String) (m : Metrics)
  | compressionMetric (value : ℚ)
  | summaryText (text : Str)
  | copyArea (text : Str)
  | downloadLink (content : Str) (filename : String)
deriving DecidableEq

/-- The message of the blank-input guard. -/
def emptyInputMsg : String := "Please enter or upload some text first."

/-- The static message shown when the summarization model failed to load. -/
def initFailureMsg : String :=
  "Model failed to load. Please check your internet connection and try again."

/-- The remediation hint rendered after any caught exception. -/
def retryHint : String :=
  "Please try again with a different text or check your internet connection."

/-- The `except` block of the handler: the error message built from the caught
exception, followed by the remediation hint. -/
def errorRenders (e : String) : List Render :=
  [Render.errorMsg ("An error occurred during summarization: " ++ e),
   Render.infoMsg retryHint]

/-- The language code `"en"` used to normalize input before summarization. -/
def enCode : Str := ['e', 'n']

/-- The compression-ratio formula of the handler, over exact rationals:
`(1 - summary_word_count / original_word_count) * 100`. -/
def compressionValue (summaryWords originalWords : Nat) : ℚ :=
  (1 - (summaryWords : ℚ) / (originalWords : ℚ)) * 100

/-- The Summarize button handler: blank-input guard, model-availability guard,
then the guarded pipeline (metrics on the original, translation to English,
summarization, translation of the summary to the target language, metrics on
the untranslated English summary), then the result renders.  Any exception
from the pipeline calls falls to the `except` renders; a zero original word
count would make the Python float division raise `ZeroDivisionError`, caught
by the same `except`, after the two metric panels were already rendered.
Returns the list of external calls made and the list of render events, both in
order. -/
def handler (env : Env) (modelLoaded : Bool) (text : Str)
    (min_len max_len : Nat) (target_lang : Str) :
    List Call × List Render :=
  if pyBlank text then
    ([], [Render.warning emptyInputMsg])
  else if modelLoaded = false then
    ([], [Render.errorMsg initFailureMsg])
  else
    let log1 := [Call.metricsCall text]
    match get_text_metrics env text with
    | .error e => (log1, errorRenders e)
    | .ok original_metrics =>
      let log2 := log1 ++ [Call.translateCall text enCode]
      match translate_text env text enCode with
      | .error e => (log2, errorRenders e)
      | .ok translated_input =>
        let log3 := log2 ++ [Call.summarizeCall translated_input max_len min_len]
        match env.summarize translated_input max_len min_len with
        | .error e => (log3, errorRenders e)
        | .ok result =>
          let log4 := log3 ++ [Call.translateCall result target_lang]
          match translate_text env result target_lang with
          | .error e => (log4, errorRenders e)
          | .ok translated_summary =>
            let log5 := log4 ++ [Call.metricsCall result]
            match get_text_metrics env result with
            | .error e => (log5, errorRenders e)
            | .ok summary_metrics =>
              let panels :=
                [Render.metricsPanel "Original Text Metrics" original_metrics,
                 Render.metricsPanel "Summary Metrics" summary_metrics]
              if original_metrics.word_count = 0 then
                (log5, panels ++ errorRenders "division by zero")
              else
                (log5, panels ++
                  [Render.compressionMetric
                     (compressionValue summary_metrics.word_count
                       original_metrics.word_count),
                   Render.summaryText translated_summary,
                   Render.copyArea translated_summary,
                   Render.downloadLink translated_summary "summary.txt"])

/-- Spec-side description of the word count: "the number of tokens obtained by
splitting T on whitespace" — split at every whitespace character and keep the
nonempty chunks. -/
def splitOnWhitespaceTokens (s : Str) : List Str :=
  (s.splitOnP Char.isWhitespace).filter (fun w => !w.isEmpty)

/-- A concrete oracle environment for instantiating theorems on concrete
inputs: every external call succeeds deterministically. -/
def testEnv : Env where
  sentences := fun _ => 1
  flesch := fun _ => 0
  smog := fun _ => 0
  detect := fun _ => .ok enCode
  translate := fun t _ => .ok t
  summarize := fun _ _ _ => .ok ['s']

/-- A variant of `testEnv` whose translation service always raises. -/
def failTranslateEnv : Env :=
  { testEnv with translate := fun _ _ => .error "boom" }

/-- One user request: the text, the two slider values, the target-language
selection. -/
structure Request where
  text : Str
  min_len : Nat
  max_len : Nat
  target_lang : Str

/-- A process session: `load_summarizer` is attempted exactly once
(`st.cache_resource` caches its outcome for the process lifetime), and every
request of the session is handled against that single cached outcome. -/
def session (env : Env) (modelLoaded : Bool) (reqs : List Request) :
    List (List Call × List Render) :=
  reqs.map fun r => handler env modelLoaded r.text r.min_len r.max_len r.target_lang

/-- `pySplitAux` never returns the empty list when a word is in progress. -/
theorem pySplitAux_ne_nil (s : Str) : ∀ acc : Str, acc ≠ [] → pySplitAux s acc ≠ [] := by
  induction s with
  | nil => intro acc h; simp [pySplitAux, h]
  | cons c cs ih =>
      intro acc h
      by_cases hw : c.isWhitespace
      · simp [pySplitAux, hw, h]
      · simpa [pySplitAux, hw] using ih (c :: acc) (by simp)

/-- A text that is not blank splits into at least one token. -/
theorem pySplit_ne_nil (s : Str) (h : pyBlank s = false) : pySplit s ≠ [] := by
  induction s with
  | nil => simp [pyBlank] at h
  | cons c cs ih =>
      by_cases hw : c.isWhitespace
      · have hcs : pyBlank cs = false := by simpa [pyBlank, hw] using h
        simpa [pySplit, pySplitAux, hw] using ih hcs
      · have hrw : pySplit (c :: cs) = pySplitAux cs [c] := by
          simp [pySplit, pySplitAux, hw]
        rw [hrw]
        exact pySplitAux_ne_nil cs [c] (by simp)

/-- A non-blank text has word count at least 1. -/
theorem pySplit_length_pos (s : Str) (h : pyBlank s = false) :
    1 ≤ (pySplit s).length :=
  List.length_pos.mpr (pySplit_ne_nil s h)

/-- The word count reported by `get_text_metrics` is `len(text.split())`. -/
theorem get_text_metrics_word_count (env : Env) (text : Str) (m : Metrics)
    (h : get_text_metrics env text = .ok m) :
    m.word_count = (pySplit text).length := by
  unfold get_text_metrics at h
  cases hd : env.detect text with
  | error e => rw [hd] at h; cases h
  | ok lang => rw [hd] at h; cases h; rfl

/-- Modifying the head with the identity changes nothing. -/
theorem modifyHead_self (l : List Str) : l.modifyHead (fun w => w) = l := by
  cases l <;> rfl

/-- `pySplitAux s acc` is the whitespace-chunking of `s` with the pending word
`acc.reverse` glued onto the first chunk, empty chunks dropped. -/
theorem pySplitAux_eq_splitOnP (s : Str) : ∀ acc : Str,
    pySplitAux s acc =
      ((s.splitOnP Char.isWhitespace).modifyHead (fun w => acc.reverse ++ w)).filter
        (fun w => !w.isEmpty) := by
  induction s with
  | nil =>
      intro acc
      by_cases h : acc = []
      · subst h; simp [pySplitAux, List.splitOnP_nil]
      · simp [pySplitAux, h, List.splitOnP_nil, List.isEmpty_iff]
  | cons c cs ih =>
      intro acc
      rw [List.splitOnP_cons]
      by_cases hw : c.isWhitespace
      · rw [if_pos hw]
        by_cases h : acc = []
        · subst h
          simpa [pySplitAux, hw, modifyHead_self] using ih []
        · simp only [pySplitAux, hw, if_true, h, if_neg h, List.modifyHead_cons,
            List.append_nil, List.filter_cons]
          have hne : (!(acc.reverse ++ [] : Str).isEmpty) = true := by
            simp [List.isEmpty_iff, h]
          simp only [List.append_nil] at hne
          rw [hne]
          simp only [if_true]
          simpa [pySplitAux, modifyHead_self] using ih []
      · rw [if_neg hw]
        have hrw : pySplitAux (c :: cs) acc = pySplitAux cs (c :: acc) := by
          simp [pySplitAux, hw]
        rw [hrw, ih (c :: acc)]
        rcases hsp : cs.splitOnP Char.isWhitespace with _ | ⟨w, ws⟩
        · exact absurd hsp (List.splitOnP_ne_nil _ _)
        · simp [List.modifyHead_cons]

/-- `pySplit` agrees with the spec-side token splitter. -/
theorem pySplit_eq_splitOnWhitespaceTokens (s : Str) :
    pySplit s = splitOnWhitespaceTokens s := by
  rw [pySplit, splitOnWhitespaceTokens, pySplitAux_eq_splitOnP]
  rcases hsp : s.splitOnP Char.isWhitespace with _ | ⟨w, ws⟩
  · exact absurd hsp (List.splitOnP_ne_nil _ _)
  · simp [List.modifyHead_cons]


/-- C1: for every request that passes validation, the pipeline executes exactly
these calls in this order: metrics on the original text, translation of the
original text to English, summarization of the English text, translation of the
summary to the target language, and metrics computed again on the untranslated
English summary string `summ` — not on the translated summary `tSum`. -/
theorem pipeline_call_order (env : Env) (text tIn summ tSum : Str)
    (min_len max_len : Nat) (tgt : Str) (m1 m2 : Metrics)
    (hb : pyBlank text = false)
    (h1 : get_text_metrics env text = .ok m1)
    (h2 : translate_text env text enCode = .ok tIn)
    (h3 : env.summarize tIn max_len min_len = .ok summ)
    (h4 : translate_text env summ tgt = .ok tSum)
    (h5 : get_text_metrics env summ = .ok m2) :
    (handler env true text min_len max_len tgt).1 =
      [Call.metricsCall text, Call.translateCall text enCode,
       Call.summarizeCall tIn max_len min_len, Call.translateCall summ tgt,
       Call.metricsCall summ] := by
  simp [handler, hb, h1, h2, h3, h4, h5]
  split <;> rfl

theorem pipeline_call_order_witness :
    (handler testEnv true ['h', 'i'] 3 5 enCode).1 =
      [Call.metricsCall ['h', 'i'], Call.translateCall ['h', 'i'] enCode,
       Call.summarizeCall ['h', 'i'] 5 3, Call.translateCall ['s'] enCode,
       Call.metricsCall ['s']] :=
  pipeline_call_order testEnv ['h', 'i'] ['h', 'i'] ['s'] ['s'] 3 5 enCode
    (Metrics.mk 1 1 0 0 enCode) (Metrics.mk 1 1 0 0 enCode)
    (by decide) rfl rfl rfl rfl rfl

/-- C2: for every blank (empty or whitespace-only) input text, triggering the
action rejects the request with the empty-input message before any external
call is made: the call trace is empty, so neither the metrics calculator nor
the translator nor the summarizer is invoked. -/
theorem blank_input_rejected (env : Env) (modelLoaded : Bool) (text : Str)
    (min_len max_len : Nat) (target_lang : Str) (hb : pyBlank text = true) :
    handler env modelLoaded text min_len max_len target_lang =
      ([], [Render.warning emptyInputMsg]) := by
  simp [handler, hb]

theorem blank_input_rejected_witness :
    handler testEnv true [' '] 3 5 enCode = ([], [Render.warning emptyInputMsg]) :=
  blank_input_rejected testEnv true [' '] 3 5 enCode (by decide)

/-- C3: any exception raised by the summarization call or either translation
call is caught at the orchestration boundary and surfaced as the user-visible
error message together with the remediation hint, and the failing call is not
retried: the call trace contains each call exactly once, ending at the call
that raised. -/
theorem external_failure_caught (env : Env) (text : Str) (min_len max_len : Nat)
    (tgt : Str) (m1 : Metrics)
    (hb : pyBlank text = false)
    (h1 : get_text_metrics env text = .ok m1) :
    (∀ e, translate_text env text enCode = .error e →
      handler env true text min_len max_len tgt =
        ([Call.metricsCall text, Call.translateCall text enCode], errorRenders e))
    ∧ (∀ tIn e, translate_text env text enCode = .ok tIn →
        env.summarize tIn max_len min_len = .error e →
        handler env true text min_len max_len tgt =
          ([Call.metricsCall text, Call.translateCall text enCode,
            Call.summarizeCall tIn max_len min_len], errorRenders e))
    ∧ (∀ tIn summ e, translate_text env text enCode = .ok tIn →
        env.summarize tIn max_len min_len = .ok summ →
        translate_text env summ tgt = .error e →
        handler env true text min_len max_len tgt =
          ([Call.metricsCall text, Call.translateCall text enCode,
            Call.summarizeCall tIn max_len min_len, Call.translateCall summ tgt],
           errorRenders e)) :=
  ⟨fun e h2 => by simp [handler, hb, h1, h2],
   fun tIn e h2 h3 => by simp [handler, hb, h1, h2, h3],
   fun tIn summ e h2 h3 h4 => by simp [handler, hb, h1, h2, h3, h4]⟩

theorem external_failure_caught_witness :
    handler failTranslateEnv true ['h', 'i'] 3 5 enCode =
      ([Call.metricsCall ['h', 'i'], Call.translateCall ['h', 'i'] enCode],
       errorRenders "boom") :=
  (external_failure_caught failTranslateEnv ['h', 'i'] 3 5 enCode
    (Metrics.mk 1 1 0 0 enCode) (by decide) rfl).1 "boom" rfl


/-- C4: file extraction dispatches on the declared file type: plain text is the
UTF-8 decoding of the bytes, a PDF yields the per-page texts joined with
newlines in page order, a DOCX yields the per-paragraph texts joined with
newlines in document order, and any other declared type yields the empty
string without signalling an error. -/
theorem read_file_dispatch (f : UploadedFile) :
    (f.mime = "text/plain" → read_file f = f.utf8Content)
    ∧ (f.mime = "application/pdf" →
        read_file f = List.intercalate ['\n'] f.pdfPages)
    ∧ (f.mime = docxMime →
        read_file f = List.intercalate ['\n'] f.docxParagraphs)
    ∧ (f.mime ≠ "text/plain" → f.mime ≠ "application/pdf" → f.mime ≠ docxMime →
        read_file f = []) :=
  ⟨fun h => by simp [read_file, h],
   fun h => by simp [read_file, h, docxMime],
   fun h => by simp [read_file, h, docxMime],
   fun h1 h2 h3 => by simp [read_file, h1, h2, h3]⟩

theorem read_file_dispatch_witness :
    read_file (UploadedFile.mk docxMime [] [] [['a'], ['b'], ['c']]) =
      ['a', '\n', 'b', '\n', 'c'] :=
  ((read_file_dispatch (UploadedFile.mk docxMime [] [] [['a'], ['b'], ['c']])).2.2.1
    rfl).trans (by decide)

/-- C5: for every non-empty text, the word count reported by the metrics
calculator equals the number of tokens obtained by splitting the text on
whitespace (the spec-side splitter `splitOnWhitespaceTokens`). -/
theorem word_count_is_whitespace_split (env : Env) (text : Str) (m : Metrics)
    (_hne : text ≠ [])
    (h : get_text_metrics env text = .ok m) :
    m.word_count = (splitOnWhitespaceTokens text).length := by
  rw [get_text_metrics_word_count env text m h, pySplit_eq_splitOnWhitespaceTokens]

theorem word_count_is_whitespace_split_witness :
    (Metrics.mk 1 1 0 0 enCode).word_count =
      (splitOnWhitespaceTokens ['h', 'i']).length :=
  word_count_is_whitespace_split testEnv ['h', 'i'] (Metrics.mk 1 1 0 0 enCode)
    (by decide) rfl

/-- C6: the displayed compression ratio equals
`(1 - summary_word_count / original_word_count) * 100`; it is strictly
positive whenever the summary word count is strictly below the original's,
and equals 0 when the two word counts are equal. -/
theorem compression_displayed_and_signed (env : Env) (text tIn summ tSum : Str)
    (min_len max_len : Nat) (tgt : Str) (m1 m2 : Metrics)
    (hb : pyBlank text = false)
    (h1 : get_text_metrics env text = .ok m1)
    (h2 : translate_text env text enCode = .ok tIn)
    (h3 : env.summarize tIn max_len min_len = .ok summ)
    (h4 : translate_text env summ tgt = .ok tSum)
    (h5 : get_text_metrics env summ = .ok m2) :
    Render.compressionMetric ((1 - (m2.word_count : ℚ) / (m1.word_count : ℚ)) * 100)
        ∈ (handler env true text min_len max_len tgt).2
    ∧ (m2.word_count < m1.word_count →
        0 < (1 - (m2.word_count : ℚ) / (m1.word_count : ℚ)) * 100)
    ∧ (m2.word_count = m1.word_count →
        (1 - (m2.word_count : ℚ) / (m1.word_count : ℚ)) * 100 = 0) := by
  have hwc : m1.word_count ≠ 0 := by
    have hw := get_text_metrics_word_count env text m1 h1
    have hpos := pySplit_length_pos text hb
    omega
  have hposQ : (0 : ℚ) < (m1.word_count : ℚ) := by
    exact_mod_cast Nat.pos_of_ne_zero hwc
  refine ⟨?_, fun hlt => ?_, fun heq => ?_⟩
  · simp [handler, hb, h1, h2, h3, h4, h5, hwc, compressionValue]
  · have hlt1 : (m2.word_count : ℚ) / (m1.word_count : ℚ) < 1 := by
      rw [div_lt_one hposQ]
      exact_mod_cast hlt
    nlinarith
  · rw [heq, div_self (ne_of_gt hposQ)]
    ring

theorem compression_displayed_and_signed_witness :
    Render.compressionMetric
        ((1 - ((Metrics.mk 1 1 0 0 enCode).word_count : ℚ) /
          ((Metrics.mk 1 1 0 0 enCode).word_count : ℚ)) * 100)
      ∈ (handler testEnv true ['h', 'i'] 3 5 enCode).2
    ∧ ((Metrics.mk 1 1 0 0 enCode).word_count < (Metrics.mk 1 1 0 0 enCode).word_count →
        0 < (1 - ((Metrics.mk 1 1 0 0 enCode).word_count : ℚ) /
          ((Metrics.mk 1 1 0 0 enCode).word_count : ℚ)) * 100)
    ∧ ((Metrics.mk 1 1 0 0 enCode).word_count = (Metrics.mk 1 1 0 0 enCode).word_count →
        (1 - ((Metrics.mk 1 1 0 0 enCode).word_count : ℚ) /
          ((Metrics.mk 1 1 0 0 enCode).word_count : ℚ)) * 100 = 0) :=
  compression_displayed_and_signed testEnv ['h', 'i'] ['h', 'i'] ['s'] ['s'] 3 5 enCode
    (Metrics.mk 1 1 0 0 enCode) (Metrics.mk 1 1 0 0 enCode) (by decide) rfl rfl rfl rfl rfl

/-- C7, counterexample: the claim asserts that some text passes the non-blank
validation yet has whitespace-split word count 0; no such text exists, because
the validation and the splitter use the same whitespace test, so a non-blank
text contains a non-whitespace character and splits into at least one token. -/
theorem no_validated_text_has_zero_word_count :
    ¬ ∃ text : Str, pyBlank text = false ∧ (pySplit text).length = 0 := by
  rintro ⟨text, hb, hlen⟩
  have := pySplit_length_pos text hb
  omega

/-- C7, amended: every text that passes the non-blank validation has word
count at least 1, so the compression-ratio division by the original word
count never sees a zero divisor on a validated input. -/
theorem validated_word_count_pos (env : Env) (text : Str) (m : Metrics)
    (hb : pyBlank text = false) (h : get_text_metrics env text = .ok m) :
    1 ≤ m.word_count ∧ m.word_count ≠ 0 := by
  have hw := get_text_metrics_word_count env text m h
  have hpos := pySplit_length_pos text hb
  omega

theorem validated_word_count_pos_witness :
    1 ≤ (Metrics.mk 1 1 0 0 enCode).word_count ∧
      (Metrics.mk 1 1 0 0 enCode).word_count ≠ 0 :=
  validated_word_count_pos testEnv ['h', 'i'] (Metrics.mk 1 1 0 0 enCode)
    (by decide) rfl

/-- C8: model loading is attempted once per process session (`session` applies
the single cached load outcome to every request); when it failed, every request
is rejected with no external call — the static model-failure message for
non-blank input, the empty-input warning for blank input. -/
theorem init_failure_session (env : Env) (reqs : List Request) :
    session env false reqs =
      reqs.map fun r =>
        (([] : List Call),
         if pyBlank r.text then [Render.warning emptyInputMsg]
         else [Render.errorMsg initFailureMsg]) := by
  unfold session
  congr 1
  funext r
  by_cases hb : pyBlank r.text <;> simp [handler, hb]

/-- C9: calling the metrics calculator twice on the same input string yields
identical results — equal word count, sentence count, Flesch score, SMOG score
and detected language — with no hidden mutation of shared state between the
two calls. -/
theorem metrics_idempotent (env : Env) (text : Str) (m1 m2 : Metrics)
    (h1 : get_text_metrics env text = .ok m1)
    (h2 : get_text_metrics env text = .ok m2) :
    m1.word_count = m2.word_count ∧ m1.sentence_count = m2.sentence_count
    ∧ m1.flesch_score = m2.flesch_score ∧ m1.smog_score = m2.smog_score
    ∧ m1.language = m2.language := by
  rw [h1] at h2
  cases h2
  exact ⟨rfl, rfl, rfl, rfl, rfl⟩

theorem metrics_idempotent_witness :
    (Metrics.mk 1 1 0 0 enCode).word_count = (Metrics.mk 1 1 0 0 enCode).word_count
    ∧ (Metrics.mk 1 1 0 0 enCode).sentence_count = (Metrics.mk 1 1 0 0 enCode).sentence_count
    ∧ (Metrics.mk 1 1 0 0 enCode).flesch_score = (Metrics.mk 1 1 0 0 enCode).flesch_score
    ∧ (Metrics.mk 1 1 0 0 enCode).smog_score = (Metrics.mk 1 1 0 0 enCode).smog_score
    ∧ (Metrics.mk 1 1 0 0 enCode).language = (Metrics.mk 1 1 0 0 enCode).language :=
  metrics_idempotent testEnv ['h', 'i'] (Metrics.mk 1 1 0 0 enCode)
    (Metrics.mk 1 1 0 0 enCode) rfl rfl

/-- C10: results are rendered atomically: the handler's render list is either
exactly the error message plus hint (when any pipeline call raises) or exactly
the complete result set (two metric panels, compression ratio, summary text,
copy area, download link); a partially rendered result set never occurs. -/
theorem render_atomicity (env : Env) (text : Str) (min_len max_len : Nat) (tgt : Str)
    (hb : pyBlank text = false) :
    (∃ e, (handler env true text min_len max_len tgt).2 = errorRenders e)
    ∨ (∃ m1 m2 tSum, (handler env true text min_len max_len tgt).2 =
        [Render.metricsPanel "Original Text Metrics" m1,
         Render.metricsPanel "Summary Metrics" m2,
         Render.compressionMetric (compressionValue m2.word_count m1.word_count),
         Render.summaryText tSum, Render.copyArea tSum,
         Render.downloadLink tSum "summary.txt"]) := by
  rcases h1 : get_text_metrics env text with e | m1
  · exact Or.inl ⟨e, by simp [handler, hb, h1]⟩
  · rcases h2 : translate_text env text enCode with e | tIn
    · exact Or.inl ⟨e, by simp [handler, hb, h1, h2]⟩
    · rcases h3 : env.summarize tIn max_len min_len with e | summ
      · exact Or.inl ⟨e, by simp [handler, hb, h1, h2, h3]⟩
      · rcases h4 : translate_text env summ tgt with e | tSum
        · exact Or.inl ⟨e, by simp [handler, hb, h1, h2, h3, h4]⟩
        · rcases h5 : get_text_metrics env summ with e | m2
          · exact Or.inl ⟨e, by simp [handler, hb, h1, h2, h3, h4, h5]⟩
          · have hwc : m1.word_count ≠ 0 := by
              have hw := get_text_metrics_word_count env text m1 h1
              have hpos := pySplit_length_pos text hb
              omega
            exact Or.inr ⟨m1, m2, tSum, by simp [handler, hb, h1, h2, h3, h4, h5, hwc]⟩

theorem render_atomicity_witness :
    (∃ e, (handler failTranslateEnv true ['h', 'i'] 3 5 enCode).2 = errorRenders e)
    ∨ (∃ m1 m2 tSum, (handler failTranslateEnv true ['h', 'i'] 3 5 enCode).2 =
        [Render.metricsPanel "Original Text Metrics" m1,
         Render.metricsPanel "Summary Metrics" m2,
         Render.compressionMetric (compressionValue m2.word_count m1.word_count),
         Render.summaryText tSum, Render.copyArea tSum,
         Render.downloadLink tSum "summary.txt"]) :=
  render_atomicity failTranslateEnv ['h', 'i'] 3 5 enCode (by decide)

end TextSummarizerApp
